import Mathlib

/-!
Verification of the Amazon pre-order monitor core (`amazon_monitor`):
a shallow embedding in Lean 4 of the session classifiers, the
availability classifier, the human-cadence scheduler, the secret
vault, the key loading logic and the orchestrator loop step, together
with theorems settling the specification claims about them.

Modelling conventions:
- Python strings are Lean `String`s; `str.lower()` is `pyLower`,
  `str.strip()` is `pyStrip`, `a in b` (substring test) is
  `containsSub`, `str.split()` is `pySplitWS`.
- A Selenium element is modelled by its observable `text` field.
- A driver page state is modelled as an explicit snapshot structure
  holding the page source, the current URL and the element lists the
  code would obtain from its `find_elements` calls, one list per
  selector, in the source order of the selector lists.
- Randomness: each `random.randint(a, b)` call site receives its draw
  as an explicit argument; hypotheses carry the bounds `a ≤ d ∧ d ≤ b`.
- Fallible code returns `Except`; an exception raised by a Python
  callback is the `Except.error` case.
-/

namespace AmazonMonitor

/-- Python `str.lower()` (ASCII case folding, which covers every
string the monitor compares). -/
def pyLower (s : String) : String := ⟨s.data.map Char.toLower⟩

/-- Python `str.strip()`: drop leading and trailing whitespace. -/
def pyStrip (s : String) : String :=
  ⟨((s.data.dropWhile Char.isWhitespace).reverse.dropWhile
      Char.isWhitespace).reverse⟩

/-- Python `needle in haystack` on strings: substring containment. -/
def containsSub (needle haystack : String) : Bool :=
  decide (needle.data <:+: haystack.data)

/-- Accumulator pass behind `pySplitWS`: collect maximal runs of
non-whitespace characters. -/
def wordsAux : List Char → List Char → List (List Char) → List (List Char)
  | [], cur, acc =>
    if cur.isEmpty then acc.reverse else (cur.reverse :: acc).reverse
  | c :: rest, cur, acc =>
    if Char.isWhitespace c then
      if cur.isEmpty then wordsAux rest [] acc
      else wordsAux rest [] (cur.reverse :: acc)
    else wordsAux rest (c :: cur) acc

/-- Python `str.split()`: split on whitespace runs, dropping empties. -/
def pySplitWS (s : String) : List String :=
  (wordsAux s.data [] []).map fun l => ⟨l⟩

/-- A DOM element as the classifiers observe it: its visible text. -/
structure Elem where
  text : String
deriving DecidableEq, Repr

/-! ### Session classifiers
`PreorderMonitor._quick_session_check` (core/monitor.py) and
`AmazonAuth.is_session_valid` (amazon/auth.py). -/

/-- Page state visible to `_quick_session_check`: the lowercased
comparisons are done inside the function, as in the source. -/
structure QuickSnapshot where
  currentUrl : String
  pageSource : String
deriving Repr

/-- `bot_detection_indicators` from `_quick_session_check`. -/
def bot_detection_indicators : List String :=
  ["unusual traffic",
   "captcha",
   "enter the characters",
   "prove you\x27re not a robot",
   "validatecaptcha",
   "robot_check",
   "sorry, something went wrong"]

/-- The sign-in indicator substrings checked by `_quick_session_check`. -/
def quick_sign_in_indicators : List String :=
  ["hello, sign in",
   "sign in to your account",
   "/ap/signin"]

/-- The account-element lookup in `_quick_session_check`:
`driver.find_element(By.ID, "nav-link-accountList")`. The name `By` is
never imported in core/monitor.py (its imports are logging, os,
random, time, webdriver, Service and package-local modules), so under
Python semantics this line raises `NameError` before any driver call. -/
def find_account_element : Except String Elem :=
  Except.error "NameError: name By is not defined"

/-- The positive-login test applied to the account element text in
`_quick_session_check`. -/
def quickPositiveTest (account : Elem) : Bool :=
  let t := pyStrip account.text
  t ≠ "" && !containsSub "sign in" (pyLower t) &&
    (containsSub "hello" (pyLower t) || (pySplitWS t).length > 1)

/-- `PreorderMonitor._quick_session_check`, with the navigation and
timeout bookkeeping abstracted into the given snapshot. Order of
checks as in the source: bot-detection indicators (against the
lowercased page source and URL), then sign-in indicators, then the
account-element branch (whose lookup raises `NameError`, caught by the
enclosing handler), then the fall-through `return False`. -/
def quick_session_check (s : QuickSnapshot) : Bool :=
  let current_url := pyLower s.currentUrl
  let page_source_lower := pyLower s.pageSource
  if bot_detection_indicators.any
      (fun ind => containsSub ind page_source_lower || containsSub ind current_url) then
    false
  else if quick_sign_in_indicators.any
      (fun ind => containsSub ind page_source_lower) then
    false
  else
    match find_account_element with
    | Except.ok account => if quickPositiveTest account then true else false
    | Except.error _ => false

/-- `PreorderMonitor._initialize_session`: quick check first, fresh
login otherwise. The login outcome is passed in explicitly. -/
def initialize_session (s : QuickSnapshot) (loginResult : Bool) : Bool :=
  if quick_session_check s then true else loginResult

/-- Page state visible to `AmazonAuth.is_session_valid`:
`positiveGroups` holds, in source order, the element lists returned by
the six `find_elements` calls of `positive_indicators`. -/
structure FullSnapshot where
  pageSource : String
  positiveGroups : List (List Elem)
deriving Repr

/-- `sign_in_indicators` from `is_session_valid`. -/
def full_sign_in_indicators : List String :=
  ["Hello, sign in",
   "Sign in",
   "Sign in to your account"]

/-- The inner per-element test of `is_session_valid`: non-empty
stripped text that is not the logged-out greeting. -/
def fullPositiveTest (e : Elem) : Bool :=
  let t := pyStrip e.text
  t ≠ "" && pyLower t ≠ "hello, sign in"

/-- `AmazonAuth.is_session_valid`: blocking signals first (captcha,
unusual traffic), then the ordered positive-indicator groups, then the
explicit sign-in prompts, then the ambiguous fall-through to `False`. -/
def is_session_valid (s : FullSnapshot) : Bool :=
  let page_source_lower := pyLower s.pageSource
  if containsSub "captcha" page_source_lower then false
  else if containsSub "unusual traffic" page_source_lower then false
  else if s.positiveGroups.any (fun g => g.any fullPositiveTest) then true
  else if full_sign_in_indicators.any
      (fun ind => containsSub (pyLower ind) page_source_lower) then
    false
  else false

/-! ### Availability classifier
`ProductChecker.check_availability` (amazon/product.py). -/

/-- Page state visible to `check_availability`: `directGroups` holds,
in source order, the element lists of the eight direct pre-order
selectors; `buyingGroups` those of the four buying-options selectors;
`pageSource` the raw page source checked for unavailability phrases. -/
structure ProductSnapshot where
  directGroups : List (List Elem)
  buyingGroups : List (List Elem)
  pageSource : String
deriving Repr

/-- `unavailable_texts` from `_check_unavailability_messages`
(checked against the raw, non-lowercased page source). -/
def unavailable_texts : List String :=
  ["Currently unavailable",
   "Out of Stock",
   "Sign up to be notified when this item becomes available",
   "Temporarily out of stock"]

/-- First element of the first non-empty group: the
`for selector: elements = find_elements(...); if elements: return elements[0]`
pattern shared by `_check_direct_preorder_buttons` and
`_check_buying_options_buttons`. -/
def firstNonempty : List (List Elem) → Option Elem
  | [] => none
  | [] :: rest => firstNonempty rest
  | (e :: _) :: _ => some e

/-- `ProductChecker._check_unavailability_messages`. -/
def check_unavailability_messages (pageSource : String) : Bool :=
  unavailable_texts.any (fun t => containsSub t pageSource)

/-- `ProductChecker.check_availability`: direct pre-order buttons
first, then buying-options buttons, then unavailability phrases, then
the unclear fall-through; the last two both yield
`(False, None, None)`. Result is `(available, button, button_type)`. -/
def check_availability (s : ProductSnapshot) : Bool × Option Elem × Option String :=
  match firstNonempty s.directGroups with
  | some e => (true, some e, some "direct")
  | none =>
    match firstNonempty s.buyingGroups with
    | some e => (true, some e, some "buying_options")
    | none =>
      if check_unavailability_messages s.pageSource then (false, none, none)
      else (false, none, none)

/-! ### Purchase flow
`CheckoutHandler.attempt_purchase` (amazon/checkout.py). The inner
flow (`_handle_buying_options_flow` / `_handle_direct_purchase_flow`
down to `_complete_checkout_process`) is passed in as an `Except`
value: `Except.error` is an exception raised inside the flow (e.g. a
`CheckoutError` from `_click_element`), caught by the top-level
handler of `attempt_purchase`, which logs and returns `False`. -/
def attempt_purchase (button : Option Elem) (button_type : Option String)
    (flow : Except String Bool) : Bool :=
  match button, button_type with
  | some _, some _ =>
    match flow with
    | Except.ok b => b
    | Except.error _ => false
  | _, _ => false

/-! ### Human-cadence scheduler
`_calculate_interval`, `_should_check_session`,
`_should_do_random_browsing` (core/monitor.py). Each `random.randint`
draw is an explicit argument. -/

/-- `PreorderMonitor._calculate_interval`: `refresh_interval` plus a
`randint(-10, 10)` jitter when the base exceeds 20, the base
unchanged otherwise. -/
def calculate_interval (refresh_interval : Int) (draw : Int) : Int :=
  if refresh_interval > 20 then refresh_interval + draw
  else refresh_interval

/-- `PreorderMonitor._should_check_session` as a state transformer on
`session_check_counter`: increment, fire and reset to 0 when the
incremented counter reaches the fresh `randint(5, 10)` draw. Returns
(new counter, fired). -/
def should_check_session (counter : Nat) (draw : Nat) : Nat × Bool :=
  if counter + 1 ≥ draw then (0, true) else (counter + 1, false)

/-- `PreorderMonitor._should_do_random_browsing` as a state
transformer on `check_count`: increment, fire when the incremented
count is divisible by the fresh `randint(8, 12)` draw; the count is
never reset. Returns (new count, fired). -/
def should_do_random_browsing (count : Nat) (draw : Nat) : Nat × Bool :=
  (count + 1, (count + 1) % draw == 0)

/-- The `session_check_counter` trace over a sequence of draws,
starting from the initial counter 0 set in `PreorderMonitor.__init__`:
`scsCounter draws k` is the counter before the k-th call. -/
def scsCounter (draws : Nat → Nat) : Nat → Nat
  | 0 => 0
  | k + 1 => (should_check_session (scsCounter draws k) (draws k)).1

/-- Whether the k-th `_should_check_session` call fires. -/
def scsFires (draws : Nat → Nat) (k : Nat) : Bool :=
  (should_check_session (scsCounter draws k) (draws k)).2

/-! ### Secret vault
`SecureString` (security/secure_string.py). The backing
`ctypes.create_string_buffer(secret.encode())` is a byte buffer of
size `len(secret) + 1` (NUL-terminated); bytes are modelled as `Nat`.
The mlock / core-dump bookkeeping of `__init__` has no observable
effect on the buffer and is omitted. -/

structure SecureString where
  length : Nat
  buffer : List Nat
deriving DecidableEq, Repr

namespace SecureString

/-- `SecureString.__init__`: `_length = len(secret)`,
`_buffer = create_string_buffer(secret.encode())`, i.e. the secret
bytes followed by a terminating zero byte. -/
def init (secret : List Nat) : SecureString :=
  ⟨secret.length, secret ++ [0]⟩

/-- `ctypes.memmove(buffer, src, n)`: overwrite the first n bytes of
the buffer with the first n bytes of src. -/
def memmove (buffer src : List Nat) (n : Nat) : List Nat :=
  src.take n ++ buffer.drop n

/-- `ctypes.memset(buffer, 0, n)`: zero the first n bytes. -/
def memset0 (buffer : List Nat) (n : Nat) : List Nat :=
  List.replicate (min n buffer.length) 0 ++ buffer.drop n

/-- `SecureString._secure_wipe`: memmove `_length` random bytes into
the buffer, then memset the first `_length` bytes to zero. Invoked by
`__del__` on destruction. -/
def secure_wipe (s : SecureString) (randomBytes : List Nat) : SecureString :=
  ⟨s.length, memset0 (memmove s.buffer randomBytes s.length) s.length⟩

/-- `SecureString.use_secret`: decode `_buffer.raw[:_length]` to a
temporary and apply the callback; the `finally` block only executes
`del temp` (dropping the local reference), so the backing buffer is
returned unchanged on both the normal and the raising path. Result is
(callback outcome, SecureString state after the call). -/
def use_secret (s : SecureString) (func : List Nat → Except ε α) :
    Except ε α × SecureString :=
  (func (s.buffer.take s.length), s)

end SecureString

/-! ### Encryption key loading
`Encryption._load_key` (security/encryption.py). The process-wide
keystore (`keyring`) is modelled by its observable content: the
stored key string, absent, or a raised keystore exception; Fernet key
validation (`Fernet(key)` succeeding) by an explicit predicate, and
the fresh `_generate_key` result by an explicit argument. -/

/-- `Encryption._load_key`: absent key → generate, store and return a
fresh one; stored key that validates → return it; stored key that
fails validation → log a warning, generate, store and return a fresh
one; a keystore exception → re-raise. Returns
(loaded key, keystore content afterwards). -/
def load_key (stored : Except String (Option String))
    (fernetValid : String → Bool) (freshKey : String) :
    Except String (String × Option String) :=
  match stored with
  | Except.error e => Except.error e
  | Except.ok none => Except.ok (freshKey, some freshKey)
  | Except.ok (some key_str) =>
    if fernetValid key_str then Except.ok (key_str, some key_str)
    else Except.ok (freshKey, some freshKey)

/-! ### Orchestrator loop step
`PreorderMonitor._handle_session_check` and the body of the `while`
loop in `PreorderMonitor._monitoring_loop` (core/monitor.py). -/

/-- `PreorderMonitor._handle_session_check`: if
`auth.is_session_valid` succeeds, return True without logging in;
otherwise attempt `auth.login` and return its outcome. Result is
(returned value, whether a login attempt was made). -/
def handle_session_check (sessionValid : Bool) (loginResult : Bool) :
    Bool × Bool :=
  if sessionValid then (true, false) else (loginResult, true)

/-- Outcome of one iteration of the `_monitoring_loop` body. -/
inductive TickOutcome where
  /-- Fall through to `time.sleep(interval)` and the next iteration. -/
  | continueMonitoring
  /-- `return True`: item purchased, run halts in success. -/
  | exitSuccess
  /-- `return False`: session check failed, run halts in failure. -/
  | exitFailed
deriving DecidableEq, Repr

/-- `PreorderMonitor._check_availability`: availability flag of the
classifier verdict. -/
def monitor_check_availability (s : ProductSnapshot) : Bool :=
  (check_availability s).1

/-- `PreorderMonitor._attempt_purchase`: re-run the classifier and
hand the button to `CheckoutHandler.attempt_purchase`. -/
def monitor_attempt_purchase (s : ProductSnapshot)
    (flow : Except String Bool) : Bool :=
  match check_availability s with
  | (true, button, button_type) => attempt_purchase button button_type flow
  | (false, _, _) => false

/-- One iteration of the `while self.is_running` body of
`_monitoring_loop`: periodic session check (hard stop when
`_handle_session_check` reports failure), then availability check and
purchase attempt (success halts the run, failure logs and
continues), then sleep. `checkFires` is `_should_check_session`,
`handleResult` the value `_handle_session_check` would return, `s`
the product page state and `flow` the checkout flow outcome. -/
def monitoring_tick (checkFires : Bool) (handleResult : Bool)
    (s : ProductSnapshot) (flow : Except String Bool) : TickOutcome :=
  if checkFires && !handleResult then TickOutcome.exitFailed
  else if monitor_check_availability s then
    if monitor_attempt_purchase s flow then TickOutcome.exitSuccess
    else TickOutcome.continueMonitoring
  else TickOutcome.continueMonitoring

/-! ## Claim theorems -/

/-- C9: `_calculate_interval` returns the base interval unchanged
whenever base ≤ 20 — in particular it maps 15 to 15 for every random
draw — and otherwise returns base plus the uniform draw from
[-10, 10], so a base of 60 yields a value in [50, 70] for every draw. -/
theorem calculate_interval_bounds (base draw : Int)
    (h : -10 ≤ draw ∧ draw ≤ 10) :
    (base ≤ 20 → calculate_interval base draw = base) ∧
    calculate_interval 15 draw = 15 ∧
    (50 ≤ calculate_interval 60 draw ∧ calculate_interval 60 draw ≤ 70) ∧
    (base > 20 → calculate_interval base draw = base + draw) := by
  unfold calculate_interval
  refine ⟨fun hb => ?_, ?_, ⟨?_, ?_⟩, fun hb => ?_⟩
  · rw [if_neg (by omega)]
  · rw [if_neg (by norm_num)]
  · rw [if_pos (by norm_num)]; omega
  · rw [if_pos (by norm_num)]; omega
  · rw [if_pos hb]

theorem calculate_interval_bounds_witness :
    calculate_interval 15 3 = 15 ∧
    50 ≤ calculate_interval 60 3 ∧ calculate_interval 60 3 ≤ 70 :=
  ⟨(calculate_interval_bounds 15 3 (by norm_num)).2.1,
   (calculate_interval_bounds 60 3 (by norm_num)).2.2.1.1,
   (calculate_interval_bounds 60 3 (by norm_num)).2.2.1.2⟩

/-- C5: `_quick_session_check` returns False for every page state —
its positive-login branch references the unimported name `By`, so the
account-element lookup always raises `NameError` (swallowed by the
enclosing handler) and no path returns True; consequently
`_initialize_session` always falls through to a fresh login, whose
outcome it returns. -/
theorem quick_session_check_never_valid :
    ∀ (s : QuickSnapshot) (loginResult : Bool),
      quick_session_check s = false ∧
      initialize_session s loginResult = loginResult := by
  intro s loginResult
  have h : quick_session_check s = false := by
    simp [quick_session_check, find_account_element]
  exact ⟨h, by simp [initialize_session, h]⟩

/-- C4: any snapshot carrying one of the checker's blocking /
bot-detection signal substrings makes that checker return Invalid:
`_quick_session_check` fails closed on its seven bot-detection
indicators (in page source or URL), and `is_session_valid` fails
closed on its blocking signals ("captcha", "unusual traffic"),
regardless of the positive logged-in indicators present. -/
theorem blocking_signals_fail_closed :
    ∀ (q : QuickSnapshot) (f : FullSnapshot),
      ((∃ ind ∈ bot_detection_indicators,
          containsSub ind (pyLower q.pageSource) = true ∨
          containsSub ind (pyLower q.currentUrl) = true) →
        quick_session_check q = false) ∧
      ((containsSub "captcha" (pyLower f.pageSource) = true ∨
        containsSub "unusual traffic" (pyLower f.pageSource) = true) →
        is_session_valid f = false) := by
  intro q f
  refine ⟨fun _ => ?_, fun h => ?_⟩
  · simp [quick_session_check, find_account_element]
  · rcases h with h | h
    · simp [is_session_valid, h]
    · cases hc : containsSub "captcha" (pyLower f.pageSource) <;>
        simp [is_session_valid, hc, h]

theorem blocking_signals_fail_closed_witness :
    quick_session_check ⟨"https://www.amazon.com", "please enter the captcha"⟩ = false ∧
    is_session_valid ⟨"we detected unusual traffic", [[⟨"Hello, John"⟩]]⟩ = false :=
  ⟨(blocking_signals_fail_closed ⟨"https://www.amazon.com", "please enter the captcha"⟩
      ⟨"we detected unusual traffic", [[⟨"Hello, John"⟩]]⟩).1
     ⟨"captcha", by decide, Or.inl (by decide)⟩,
   (blocking_signals_fail_closed ⟨"https://www.amazon.com", "please enter the captcha"⟩
      ⟨"we detected unusual traffic", [[⟨"Hello, John"⟩]]⟩).2
     (Or.inr (by decide))⟩

/-- C6: when at least one direct-purchase selector group matches and a
literal unavailability phrase is on the page, `check_availability`
returns the direct verdict with the first element of the first
matching group: direct-purchase detection runs first and outranks
unavailability phrases. -/
theorem check_availability_direct_outranks_unavailable
    (s : ProductSnapshot) (e : Elem)
    (hdirect : firstNonempty s.directGroups = some e)
    (_hunavail : ∃ t ∈ unavailable_texts, containsSub t s.pageSource = true) :
    check_availability s = (true, some e, some "direct") := by
  unfold check_availability
  rw [hdirect]

theorem check_availability_direct_outranks_unavailable_witness :
    check_availability
        ⟨[[], [⟨"Pre-order"⟩, ⟨"other"⟩]], [[⟨"See All Buying Options"⟩]],
         "stale banner: Currently unavailable"⟩ =
      (true, some ⟨"Pre-order"⟩, some "direct") :=
  check_availability_direct_outranks_unavailable
    ⟨[[], [⟨"Pre-order"⟩, ⟨"other"⟩]], [[⟨"See All Buying Options"⟩]],
     "stale banner: Currently unavailable"⟩
    ⟨"Pre-order"⟩ (by decide)
    ⟨"Currently unavailable", by decide, by decide⟩

/-- C7 as stated is false: the filler counter `check_count` is never
reset by `_should_do_random_browsing`. Concretely, at count 7 with
draw 8 the trigger fires and the new count is 8, not 0. -/
theorem filler_counter_not_reset :
    ¬ ((should_do_random_browsing 7 8).2 = true →
        (should_do_random_browsing 7 8).1 = 0) := by decide

/-- C7 amended: `session_check_counter` is reset to 0 exactly when
`_should_check_session` fires and incremented by 1 otherwise, never
decreased; `check_count` is incremented by exactly 1 on every
`_should_do_random_browsing` call — including firing ones — and is
never reset. -/
theorem loop_counters_behavior :
    ∀ (c d : Nat),
      (should_check_session c d = (0, true) ∨
        should_check_session c d = (c + 1, false)) ∧
      ((should_check_session c d).2 = true →
        (should_check_session c d).1 = 0) ∧
      should_do_random_browsing c d = (c + 1, (c + 1) % d == 0) := by
  intro c d
  unfold should_check_session should_do_random_browsing
  by_cases h : c + 1 ≥ d
  · rw [if_pos h]
    exact ⟨Or.inl rfl, fun _ => rfl, rfl⟩
  · rw [if_neg h]
    exact ⟨Or.inr rfl, fun hf => absurd hf (by simp), rfl⟩

theorem loop_counters_behavior_witness :
    (should_check_session 9 5).1 = 0 ∧
    should_do_random_browsing 7 8 = (8, (8 : Nat) % 8 == 0) :=
  ⟨(loop_counters_behavior 9 5).2.1 (by decide),
   (loop_counters_behavior 7 8).2.2⟩

/-- C2 as stated is false: when the periodic full session check
returns Invalid, `_handle_session_check` attempts a re-login (second
component true) and, when that login succeeds, the loop iteration
continues monitoring rather than hard-stopping in Failed. -/
theorem periodic_check_invalid_not_hard_stop :
    (handle_session_check false true).2 = true ∧
    monitoring_tick true (handle_session_check false true).1
        ⟨[], [], ""⟩ (Except.ok false) = TickOutcome.continueMonitoring := by
  decide

/-- C2 amended: a periodic full-check Invalid triggers exactly one
re-login attempt inside `_handle_session_check`; the run transitions
to Failed only when that re-login also fails, and otherwise the
monitoring loop proceeds. -/
theorem periodic_check_invalid_attempts_relogin :
    ∀ (loginResult : Bool) (s : ProductSnapshot) (flow : Except String Bool),
      handle_session_check false loginResult = (loginResult, true) ∧
      handle_session_check true loginResult = (true, false) ∧
      (loginResult = false →
        monitoring_tick true (handle_session_check false loginResult).1 s flow =
          TickOutcome.exitFailed) ∧
      (loginResult = true →
        monitoring_tick true (handle_session_check false loginResult).1 s flow ≠
          TickOutcome.exitFailed) := by
  intro loginResult s flow
  refine ⟨rfl, rfl, ?_, ?_⟩
  · rintro rfl
    simp [monitoring_tick, handle_session_check]
  · rintro rfl
    cases hA : monitor_check_availability s <;>
      cases hP : monitor_attempt_purchase s flow <;>
        simp [monitoring_tick, handle_session_check, hA, hP]

theorem periodic_check_invalid_attempts_relogin_witness :
    monitoring_tick true (handle_session_check false false).1
        ⟨[], [], ""⟩ (Except.ok false) = TickOutcome.exitFailed ∧
    monitoring_tick true (handle_session_check false true).1
        ⟨[], [], ""⟩ (Except.ok false) ≠ TickOutcome.exitFailed :=
  ⟨(periodic_check_invalid_attempts_relogin false ⟨[], [], ""⟩
      (Except.ok false)).2.2.1 rfl,
   (periodic_check_invalid_attempts_relogin true ⟨[], [], ""⟩
      (Except.ok false)).2.2.2 rfl⟩

/-- C3 as stated is false: with a stored key that fails validation,
`_load_key` does not raise — it silently generates a fresh key,
stores it in the keystore and returns it. -/
theorem load_key_invalid_no_error :
    load_key (Except.ok (some "not-a-valid-key")) (fun _ => false) "FRESH" =
      Except.ok ("FRESH", some "FRESH") := rfl

/-- C3 amended: `_load_key` generates and stores a fresh key both
when no key is stored and when the stored key fails validation
(logging a warning, not raising); a stored key that validates is
returned as-is, and only a keystore exception propagates as an
error. -/
theorem load_key_regeneration_policy :
    ∀ (valid : String → Bool) (fresh key e : String),
      load_key (Except.ok none) valid fresh = Except.ok (fresh, some fresh) ∧
      (valid key = true →
        load_key (Except.ok (some key)) valid fresh = Except.ok (key, some key)) ∧
      (valid key = false →
        load_key (Except.ok (some key)) valid fresh =
          Except.ok (fresh, some fresh)) ∧
      load_key (Except.error e) valid fresh = Except.error e := by
  intro valid fresh key e
  refine ⟨rfl, fun h => ?_, fun h => ?_, rfl⟩
  · simp [load_key, h]
  · simp [load_key, h]

theorem load_key_regeneration_policy_witness :
    load_key (Except.ok (some "GOODKEY")) (fun _ => true) "FRESH" =
      Except.ok ("GOODKEY", some "GOODKEY") ∧
    load_key (Except.ok (some "BADKEY")) (fun _ => false) "FRESH" =
      Except.ok ("FRESH", some "FRESH") :=
  ⟨(load_key_regeneration_policy (fun _ => true) "FRESH" "GOODKEY" "E").2.1 rfl,
   (load_key_regeneration_policy (fun _ => false) "FRESH" "BADKEY" "E").2.2.1 rfl⟩

/-- C1 as stated is false: after `use_secret` completes, the backing
buffer still holds the original secret byte at its original position
(here byte 65 of the one-byte secret, at index 0): the `finally`
block only drops the temporary decoded reference and never touches
the buffer. -/
theorem use_secret_no_wipe_on_use :
    ((SecureString.init [65]).use_secret
        (fun b => (Except.ok b : Except String (List Nat)))).2.buffer.get? 0 =
      some 65 := by decide

/-- C1 amended: `use_secret` invokes the callback with exactly the
original plaintext and returns its outcome, leaving the backing
buffer unchanged on both exit paths (normal return and raised
exception alike); the random-then-zero overwrite is performed only by
`_secure_wipe` — invoked on destruction via `__del__` — after which
every one of the first `_length` buffer positions holds a zero byte. -/
theorem use_secret_plaintext_and_wipe_on_destruction :
    ∀ (secret randomBytes : List Nat)
      (func : List Nat → Except String (List Nat)),
      randomBytes.length = secret.length →
      (SecureString.init secret).use_secret func =
        (func secret, SecureString.init secret) ∧
      (∀ i, i < secret.length →
        ((SecureString.init secret).secure_wipe randomBytes).buffer.get? i =
          some 0) := by
  intro secret rnd func hr
  constructor
  · unfold SecureString.use_secret SecureString.init
    simp
  · intro i hi
    have hbuf : ((SecureString.init secret).secure_wipe rnd).buffer =
        List.replicate secret.length 0 ++ [0] := by
      unfold SecureString.secure_wipe SecureString.memset0 SecureString.memmove
        SecureString.init
      have htake : rnd.take secret.length = rnd := by
        rw [← hr, List.take_length]
      have hdrop : (secret ++ [0]).drop secret.length = [0] :=
        List.drop_left secret [0]
      simp only [htake, hdrop]
      have hlen : (rnd ++ [0]).length = secret.length + 1 := by
        simp [hr]
      have hmin : min secret.length (rnd ++ [0]).length = secret.length := by
        rw [hlen]; omega
      rw [hmin]
      have hdrop2 : (rnd ++ [0]).drop secret.length = [0] := by
        rw [← hr]; exact List.drop_left rnd [0]
      rw [hdrop2]
    rw [hbuf]
    rw [List.get?_eq_getElem?, List.getElem?_append_left (by simpa using hi)]
    simp [List.getElem?_replicate, hi]

theorem use_secret_plaintext_and_wipe_on_destruction_witness :
    (SecureString.init [72, 105]).use_secret
        (fun b => (Except.ok b : Except String (List Nat))) =
      (Except.ok [72, 105], SecureString.init [72, 105]) ∧
    ((SecureString.init [72, 105]).secure_wipe [200, 201]).buffer.get? 0 =
      some 0 :=
  ⟨(use_secret_plaintext_and_wipe_on_destruction [72, 105] [200, 201] _
      (by decide)).1,
   (use_secret_plaintext_and_wipe_on_destruction [72, 105] [200, 201]
      (fun b => (Except.ok b : Except String (List Nat)))
      (by decide)).2 0 (by decide)⟩

/-- A failing checkout flow makes `CheckoutHandler.attempt_purchase`
report `False`, for any button and button type: an exception raised
inside the flow is caught by its top-level handler. -/
theorem attempt_purchase_failure_reports_false
    (button : Option Elem) (button_type : Option String)
    (flow : Except String Bool)
    (h : flow = Except.error "CheckoutError" ∨ flow = Except.ok false) :
    attempt_purchase button button_type flow = false := by
  rcases h with rfl | rfl <;>
    cases button <;> cases button_type <;> rfl

/-- A failing checkout flow makes `PreorderMonitor._attempt_purchase`
report `False` regardless of the classifier verdict. -/
theorem monitor_attempt_purchase_failure (s : ProductSnapshot)
    (flow : Except String Bool)
    (h : flow = Except.error "CheckoutError" ∨ flow = Except.ok false) :
    monitor_attempt_purchase s flow = false := by
  unfold monitor_attempt_purchase
  rcases hv : check_availability s with ⟨a, button, button_type⟩
  cases a
  · rfl
  · exact attempt_purchase_failure_reports_false button button_type flow h

/-- C10: in a Monitoring-loop iteration whose session-check gate does
not fail, a purchasable classifier verdict followed by a failed
purchase attempt — the checkout flow raising `CheckoutError` or
reporting failure — leaves the iteration outcome at
`continueMonitoring`: the warning is logged and the loop proceeds to
the next tick rather than terminating the run. -/
theorem purchase_failure_resumes_monitoring :
    ∀ (s : ProductSnapshot) (flow : Except String Bool)
      (checkFires handleResult : Bool),
      (checkFires = true → handleResult = true) →
      monitor_check_availability s = true →
      (flow = Except.error "CheckoutError" ∨ flow = Except.ok false) →
      monitoring_tick checkFires handleResult s flow =
        TickOutcome.continueMonitoring := by
  intro s flow checkFires handleResult hgate hA hflow
  have hP : monitor_attempt_purchase s flow = false :=
    monitor_attempt_purchase_failure s flow hflow
  have hgateF : (checkFires && !handleResult) = false := by
    cases checkFires
    · rfl
    · rw [hgate rfl]; rfl
  simp [monitoring_tick, hgateF, hA, hP]

theorem purchase_failure_resumes_monitoring_witness :
    monitoring_tick false true ⟨[[⟨"preorder-button"⟩]], [], ""⟩
        (Except.error "CheckoutError") = TickOutcome.continueMonitoring :=
  purchase_failure_resumes_monitoring ⟨[[⟨"preorder-button"⟩]], [], ""⟩
    (Except.error "CheckoutError") false true
    (by intro h; cases h) (by decide) (Or.inl rfl)

/-- Invariant: along any draw sequence from the configured range, the
stored `session_check_counter` never exceeds 9. -/
theorem scsCounter_le_nine (draws : Nat → Nat)
    (hd : ∀ i, 5 ≤ draws i ∧ draws i ≤ 10) :
    ∀ k, scsCounter draws k ≤ 9 := by
  intro k
  induction k with
  | zero => exact Nat.zero_le 9
  | succ k ih =>
    show (should_check_session (scsCounter draws k) (draws k)).1 ≤ 9
    unfold should_check_session
    by_cases h : scsCounter draws k + 1 ≥ draws k
    · rw [if_pos h]
      exact Nat.zero_le 9
    · rw [if_neg h]
      have := (hd k).2
      omega

/-- While no call has fired, the counter equals the number of calls
made so far. -/
theorem scsCounter_of_no_fire (draws : Nat → Nat) :
    ∀ j, (∀ i, i < j → scsFires draws i = false) → scsCounter draws j = j := by
  intro j
  induction j with
  | zero => intro _; rfl
  | succ j ih =>
    intro h
    have hc : scsCounter draws j = j :=
      ih (fun i hi => h i (Nat.lt_succ_of_lt hi))
    have hf : scsFires draws j = false := h j (Nat.lt_succ_self j)
    show (should_check_session (scsCounter draws j) (draws j)).1 = j + 1
    unfold scsFires should_check_session at hf
    unfold should_check_session
    by_cases hcond : scsCounter draws j + 1 ≥ draws j
    · rw [if_pos hcond] at hf
      exact Bool.noConfusion hf
    · rw [if_neg hcond, hc]

/-- C8: `_should_check_session` increments its counter on every call,
resets it to 0 exactly when it fires, and — for every sequence of
`randint(5, 10)` draws — the tested counter value never exceeds 10
(the stored counter never exceeds 9) and the first firing happens on
call N for some N with 5 ≤ N ≤ 10, with no earlier call firing. -/
theorem should_check_session_cadence (draws : Nat → Nat)
    (hd : ∀ i, 5 ≤ draws i ∧ draws i ≤ 10) :
    (∀ k, scsCounter draws k + 1 ≤ 10) ∧
    (∀ k, scsFires draws k = true → scsCounter draws (k + 1) = 0) ∧
    (∀ k, scsFires draws k = false →
      scsCounter draws (k + 1) = scsCounter draws k + 1) ∧
    (∃ N, 5 ≤ N ∧ N ≤ 10 ∧ scsFires draws (N - 1) = true ∧
      ∀ j, j < N - 1 → scsFires draws j = false) := by
  refine ⟨?_, ?_, ?_, ?_⟩
  · intro k
    have := scsCounter_le_nine draws hd k
    omega
  · intro k hf
    show (should_check_session (scsCounter draws k) (draws k)).1 = 0
    unfold scsFires should_check_session at hf
    unfold should_check_session
    by_cases h : scsCounter draws k + 1 ≥ draws k
    · rw [if_pos h]
    · rw [if_neg h] at hf
      exact Bool.noConfusion hf
  · intro k hf
    show (should_check_session (scsCounter draws k) (draws k)).1 =
      scsCounter draws k + 1
    unfold scsFires should_check_session at hf
    unfold should_check_session
    by_cases h : scsCounter draws k + 1 ≥ draws k
    · rw [if_pos h] at hf
      exact Bool.noConfusion hf
    · rw [if_neg h]
  · have hex : ∃ k, scsFires draws k = true := by
      by_contra hno
      push_neg at hno
      have hall : ∀ i, scsFires draws i = false := by
        intro i
        cases hfi : scsFires draws i
        · rfl
        · exact absurd hfi (hno i)
      have h9 : scsCounter draws 9 = 9 :=
        scsCounter_of_no_fire draws 9 (fun i _ => hall i)
      have hf9 : scsFires draws 9 = true := by
        unfold scsFires should_check_session
        rw [h9, if_pos (by have := (hd 9).2; omega)]
      rw [hall 9] at hf9
      exact Bool.noConfusion hf9
    have hk0 : scsFires draws (Nat.find hex) = true := Nat.find_spec hex
    have hmin : ∀ j, j < Nat.find hex → scsFires draws j = false := by
      intro j hj
      have hne := Nat.find_min hex hj
      cases hfj : scsFires draws j
      · rfl
      · exact absurd hfj hne
    have hcnt : scsCounter draws (Nat.find hex) = Nat.find hex :=
      scsCounter_of_no_fire draws _ hmin
    have hcond : scsCounter draws (Nat.find hex) + 1 ≥ draws (Nat.find hex) := by
      by_contra hlt
      unfold scsFires should_check_session at hk0
      rw [if_neg hlt] at hk0
      exact Bool.noConfusion hk0
    have hge : 5 ≤ Nat.find hex + 1 := by
      rw [hcnt] at hcond
      have := (hd (Nat.find hex)).1
      omega
    have hle : Nat.find hex ≤ 9 := by
      by_contra hgt
      push_neg at hgt
      have h9 : scsCounter draws 9 = 9 :=
        scsCounter_of_no_fire draws 9 (fun i hi => hmin i (lt_trans hi hgt))
      have hf9 : scsFires draws 9 = true := by
        unfold scsFires should_check_session
        rw [h9, if_pos (by have := (hd 9).2; omega)]
      rw [hmin 9 hgt] at hf9
      exact Bool.noConfusion hf9
    exact ⟨Nat.find hex + 1, hge, by omega, by simpa using hk0,
      by simpa using hmin⟩

theorem should_check_session_cadence_witness :
    scsCounter (fun _ => 5) 7 + 1 ≤ 10 :=
  (should_check_session_cadence (fun _ => 5)
    (fun _ => ⟨Nat.le_refl 5, by norm_num⟩)).1 7

end AmazonMonitor
